import Mathlib

namespace Hextris

/-!
# Verification of the hextris session / timer / score-reporting layer

Shallow embedding of `src/js/initialization.js` and `src/js/view.js`.
Wall-clock timestamps (`Date.now()` values, milliseconds) and fractional
seconds are embedded as rationals; JS strings as `String` with `""`
standing for both the empty string and `null`/`undefined` where the code
only tests truthiness; `parseInt` results as integers.
-/

/-- Timer state, from the globals in `initialization.js`:
`gameTimerDuration` (seconds), `gameTimerStartTime` (`Date.now()` ms,
`undefined` before start), `gameTimerPausedElapsed` (seconds, `undefined`
outside a pause). -/
structure TimerState where
  duration : ℚ
  startedAt : Option ℚ
  pausedElapsed : Option ℚ
  deriving DecidableEq, Repr

/-- The pause branch of `pause()` in `view.js` (lines 262-266): when
`gameTimerStartTime !== undefined`, store
`gameTimerPausedElapsed = (Date.now() - gameTimerStartTime) / 1000`. -/
def pauseSnapshot (now : ℚ) (s : TimerState) : TimerState :=
  match s.startedAt with
  | none => s
  | some st => { s with pausedElapsed := some ((now - st) / 1000) }

/-- The resume branch of `pause()` in `view.js` (lines 244-249): when
`prevGameState == 1 && gameTimerPausedElapsed !== undefined &&
gameTimerStartTime !== undefined`, compute
`pauseDuration = Date.now() - (gameTimerStartTime + gameTimerPausedElapsed * 1000)`,
shift `gameTimerStartTime += pauseDuration` and clear
`gameTimerPausedElapsed`. -/
def resumeCompensate (now : ℚ) (prevGameState : ℤ) (s : TimerState) : TimerState :=
  match s.startedAt, s.pausedElapsed with
  | some st, some pe =>
      if prevGameState = 1 then
        { s with startedAt := some (st + (now - (st + pe * 1000))),
                 pausedElapsed := none }
      else s
  | _, _ => s

/-- Modelled from the spec: `remaining()` of §4.3 — the per-frame code that
recomputes the countdown from `gameTimerStartTime` is not under `src/`;
the spec defines it as full duration when not started, else
`max(0, duration − (now − startedAt))`, with `startedAt` held in
milliseconds as in the code. -/
def remaining (now : ℚ) (s : TimerState) : ℚ :=
  match s.startedAt with
  | none => s.duration
  | some st => max 0 (s.duration - (now - st) / 1000)

/-! ## Score submission (`submitScoreToFlutter`, `view.js` lines 167-217) -/

/-- The `timeTaken` computation of `submitScoreToFlutter` (`view.js`
lines 174-189): default is the full `gameTimerDuration`; when
`gameTimer` is defined and positive, `Math.ceil(gameTimerDuration - gameTimer)`;
when defined and `<= 0`, the full duration; finally
`Math.max(1, Math.min(gameTimerDuration, timeTaken))`. `gameTimerDuration`
is an integer (`parseInt` result), `gameTimer` a fractional seconds value. -/
def timeTaken (gameTimerDuration : ℤ) (gameTimer : Option ℚ) : ℚ :=
  let t : ℚ :=
    match gameTimer with
    | none => (gameTimerDuration : ℚ)
    | some g =>
        if g > 0 then ((Int.ceil ((gameTimerDuration : ℚ) - g) : ℤ) : ℚ)
        else (gameTimerDuration : ℚ)
  max 1 (min (gameTimerDuration : ℚ) t)

/-- The URL built by `submitScoreToFlutter` (`view.js` line 191): the base
is the hardcoded literal, not the resolved `apiServerUrl`. -/
def submitUrl (poolId sessionId : String) : String :=
  "http://192.168.29.71:5006/api/v1/game-pools/" ++ poolId ++ "/sessions/"
    ++ sessionId ++ "/submit-score"

/-- Modelled from the spec (for comparison only): §6 of the spec says the
submit-score POST goes to
`{apiServerUrl}/api/v1/game-pools/{poolId}/sessions/{sessionId}/submit-score`,
with `apiServerUrl` defaulting to the fixed well-known base URL
(`https://api.metaninza.net`, `initialization.js` line 7). -/
def specSubmitUrl (apiServerUrl poolId sessionId : String) : String :=
  apiServerUrl ++ "/api/v1/game-pools/" ++ poolId ++ "/sessions/"
    ++ sessionId ++ "/submit-score"

/-- The request `submitScoreToFlutter` would issue, or `skipped` when the
guard at `view.js` lines 168-172 returns early. -/
inductive SubmitResult where
  | skipped
  | request (url : String) (authHeader : String) (bodyScore : ℤ) (bodyTime : ℚ)
  deriving DecidableEq, Repr

/-- `submitScoreToFlutter` (`view.js` lines 167-204) up to the `fetch`
call: guard on `!poolId || !sessionId || !authToken` (JS falsiness of the
string/null globals is embedded as `= ""`), then build the request with
the hardcoded URL base, `Authorization: Bearer` header, and body
`{score, time: timeTaken}`. -/
def submitScoreToFlutter (poolId sessionId authToken : String)
    (score : ℤ) (gameTimerDuration : ℤ) (gameTimer : Option ℚ) : SubmitResult :=
  if poolId = "" ∨ sessionId = "" ∨ authToken = "" then .skipped
  else .request (submitUrl poolId sessionId) ("Bearer " ++ authToken)
    score (timeTaken gameTimerDuration gameTimer)

/-! ## Outcome handling of the submit fetch (`view.js` lines 197-216) -/

/-- The settled state of a JS promise. -/
inductive JsPromise (α : Type) where
  | fulfilled (a : α)
  | rejected (err : String)
  deriving DecidableEq, Repr

/-- `.then(f)` on a settled promise: a rejection skips the handler. -/
def pThen {α β : Type} (p : JsPromise α) (f : α → JsPromise β) : JsPromise β :=
  match p with
  | .fulfilled a => f a
  | .rejected e => .rejected e

/-- `.catch(h)` on a settled promise: the handler absorbs a rejection. -/
def pCatch {α : Type} (p : JsPromise α) (h : String → α) : JsPromise α :=
  match p with
  | .fulfilled a => .fulfilled a
  | .rejected e => .fulfilled (h e)

/-- What the `fetch` in `submitScoreToFlutter` can settle to: a response
with `ok` flag and a body that parses as JSON or not, or a
transport-level failure. (The handler chain reads nothing else of the
response.) -/
inductive FetchOutcome where
  | response (ok : Bool) (jsonValid : Bool)
  | networkError
  deriving DecidableEq, Repr

structure JsResponse where
  ok : Bool
  jsonValid : Bool
  deriving DecidableEq, Repr

def fetchPromise : FetchOutcome → JsPromise JsResponse
  | .response ok jsonValid => .fulfilled { ok := ok, jsonValid := jsonValid }
  | .networkError => .rejected "TypeError: Failed to fetch"

/-- First `.then` handler (`view.js` lines 205-210): throw on `!response.ok`,
else `response.json()`, whose promise rejects on a malformed body. -/
def respHandler (r : JsResponse) : JsPromise Unit :=
  if !r.ok then .rejected "Network response was not ok"
  else if r.jsonValid then .fulfilled () else .rejected "SyntaxError: Unexpected token"

/-- Console event reached at the end of the shipped chain. -/
inductive ConsoleEvent where
  | successLog
  | errorLog
  deriving DecidableEq, Repr

/-- Second `.then` handler (`view.js` lines 211-213): logs success to the
console; the paired list records the `sendMessageToFlutter` calls made on
this path in `view.js` — there are none. -/
def dataHandler (_ : Unit) : JsPromise (ConsoleEvent × List String) :=
  .fulfilled (.successLog, [])

/-- `.catch` handler (`view.js` lines 214-216): logs the error to the
console; again no `sendMessageToFlutter` call occurs. -/
def catchHandler (_ : String) : ConsoleEvent × List String :=
  (.errorLog, [])

/-- The full settled value of the shipped
`fetch(...).then(...).then(...).catch(...)` chain, paired with the list
of host notifications (`sendMessageToFlutter` message types) it emits. -/
def submitOutcomeChain (o : FetchOutcome) : JsPromise (ConsoleEvent × List String) :=
  pCatch (pThen (pThen (fetchPromise o) respHandler) dataHandler) catchHandler

/-! ## Session resolution (`initFlutterParams`, `initialization.js` lines 21-132)

JS `null`/`undefined`/`""` string fields are all embedded as `""` (the
code only ever tests their truthiness); fields checked with
`!== undefined` are embedded as `Option`. The registration of the
asynchronous `message` listener (lines 85-107) installs the inbound
channel but mutates nothing during the call itself, so it does not appear
in the state transformation. -/

/-- The injected `window.__GAME_SESSION__` object (§6 of the spec). -/
structure InjectedSession where
  sessionId : String
  token : String
  poolId : String
  timerDuration : Option ℤ
  timer : Option ℤ
  apiServerUrl : String
  apiServer : String
  expiresAt : Option ℚ
  deriving DecidableEq, Repr

/-- Query-string parameters as returned by `getUrlParameter` (`""` when
absent). `timer` is the `parseInt` value of the `timer` parameter when
the parameter is a non-empty string (a non-numeric parse, JS `NaN`, is
embedded as `0`, which `parseInt(x) || 15` treats the same way). -/
structure QueryParams where
  poolId : String
  sessionId : String
  authToken : String
  timer : Option ℤ
  apiServerUrl : String
  apiServer : String
  debug : String
  deriving DecidableEq, Repr

/-- The session globals of `initialization.js` lines 2-8. -/
structure SessionState where
  poolId : String
  sessionId : String
  authToken : String
  gameTimerDuration : ℤ
  apiServerUrl : String
  sessionReady : Bool
  deriving DecidableEq, Repr

/-- The globals at their declarations (`initialization.js` lines 2-8). -/
def initialState : SessionState :=
  { poolId := "", sessionId := "", authToken := "",
    gameTimerDuration := 15, apiServerUrl := "https://api.metaninza.net",
    sessionReady := false }

/-- `parseInt(x) || 15`: zero (and a `NaN` parse, embedded as 0) falls
back to 15. -/
def parseIntOr15 (n : ℤ) : ℤ :=
  if n = 0 then 15 else n

/-- `window.__GAME_SESSION__.expiresAt && Date.now() > window.__GAME_SESSION__.expiresAt`
(`initialization.js` line 39): `expiresAt` must be present and truthy
(non-zero) and strictly in the past. -/
def isExpired (now : ℚ) (g : InjectedSession) : Bool :=
  match g.expiresAt with
  | some e => (e != 0) && decide (e < now)
  | none => false

/-- Channels (1) and (2) of `initFlutterParams` (`initialization.js`
lines 33-82): when the injected object exists, identity fields come from
it (cleared when it is expired) and the query string is consulted only
for `poolId` when the object lacks one; only when no injected object
exists at all do all fields come from the query string. -/
def resolveChannels (now : ℚ) (injected : Option InjectedSession)
    (q : QueryParams) (st : SessionState) : SessionState :=
  match injected with
  | some g =>
      let cleared := isExpired now g
      { poolId := if g.poolId ≠ "" then g.poolId else q.poolId
        sessionId := if cleared then "" else g.sessionId
        authToken := if cleared then "" else g.token
        gameTimerDuration :=
          match g.timerDuration with
          | some n => parseIntOr15 n
          | none =>
              match g.timer with
              | some n => parseIntOr15 n
              | none => st.gameTimerDuration
        apiServerUrl :=
          if g.apiServerUrl ≠ "" then g.apiServerUrl
          else if g.apiServer ≠ "" then g.apiServer
          else st.apiServerUrl
        sessionReady := st.sessionReady }
  | none =>
      { poolId := q.poolId
        sessionId := q.sessionId
        authToken := q.authToken
        gameTimerDuration :=
          match q.timer with
          | some n => parseIntOr15 n
          | none => st.gameTimerDuration
        apiServerUrl :=
          if q.apiServerUrl ≠ "" then q.apiServerUrl
          else if q.apiServer ≠ "" then q.apiServer
          else st.apiServerUrl
        sessionReady := st.sessionReady }

/-- The debug escape path (`initialization.js` lines 109-117): only when
`debug=true` and both identity fields are still empty, fill
`poolId`/`sessionId`/`authToken` from the query string, the current
value, or the fixed placeholders. -/
def applyDebug (q : QueryParams) (st : SessionState) : SessionState :=
  if q.debug = "true" ∧ st.sessionId = "" ∧ st.authToken = "" then
    { st with
      poolId :=
        if q.poolId ≠ "" then q.poolId
        else if st.poolId ≠ "" then st.poolId else "test-pool-123"
      sessionId :=
        if q.sessionId ≠ "" then q.sessionId
        else if st.sessionId ≠ "" then st.sessionId else "test-session-456"
      authToken :=
        if q.authToken ≠ "" then q.authToken
        else if st.authToken ≠ "" then st.authToken else "test-token-789" }
  else st

/-- `initialization.js` lines 119-131: readiness is exactly both
identity fields non-empty. -/
def setReady (st : SessionState) : SessionState :=
  { st with sessionReady := (st.sessionId != "") && (st.authToken != "") }

/-- The request-parameters emission guard (`initialization.js`
lines 23-31): the outbound `requestSessionParams` message is sent exactly
when no injected object exists and the identity globals carried over from
previous polls are both empty. -/
def emitsRequestSessionParams (injected : Option InjectedSession)
    (st : SessionState) : Bool :=
  injected.isNone && (st.sessionId == "") && (st.authToken == "")

/-- One call of `initFlutterParams`: the emission decision reads the
prior state, then channels (1)/(2), the debug path and the readiness
update run in order. Returns the new state and whether the
`requestSessionParams` signal was emitted. -/
def initFlutterParams (now : ℚ) (injected : Option InjectedSession)
    (q : QueryParams) (st : SessionState) : SessionState × Bool :=
  (setReady (applyDebug q (resolveChannels now injected q st)),
   emitsRequestSessionParams injected st)

/-! ## The pause/resume transition window (`pause`, `view.js` lines 219-272)

`gameState` codes as used by the code: `0` menu, `1` playing, `-1`
paused; `pausable = false` is the spec's `Transitioning` window, opened
by each pause/resume and closed by the 400 ms `setTimeout` callback.
DOM/overlay effects are elided; `writeHighScores` touches no state
modelled here. -/

/-- A callback scheduled by `pause()` via `setTimeout(..., 400)`: the one
at lines 250-253 (restore `gameState = prevGameState`, `pausable = true`)
or the one at lines 267-269 (`pausable = true` only). -/
inductive Scheduled where
  | resumeResolve
  | pauseResolve
  deriving DecidableEq, Repr

/-- The globals `pause()` reads and writes. -/
structure GameView where
  gameState : ℤ
  prevGameState : ℤ
  pausable : Bool
  timer : TimerState
  deriving DecidableEq, Repr

/-- `pause()` (`view.js` lines 220-272): early return when the state is
menu/`2` or a transition window is open; otherwise close `pausable`,
then either the resume branch (compensate the timer, schedule the 400 ms
state restore) or the pause branch (remember `prevGameState`, snapshot
the timer, enter `-1`, schedule the 400 ms unlock). Returns the new state
and the callback scheduled, if any. -/
def pause (now : ℚ) (s : GameView) : GameView × Option Scheduled :=
  if s.gameState = 0 ∨ s.gameState = 2 ∨ s.pausable = false then (s, none)
  else
    let s1 : GameView := { s with pausable := false }
    if s1.gameState = -1 then
      ({ s1 with timer := resumeCompensate now s1.prevGameState s1.timer },
        some .resumeResolve)
    else if s1.gameState = -2 then (s1, none)
    else
      ({ s1 with prevGameState := s1.gameState,
                 timer := pauseSnapshot now s1.timer,
                 gameState := -1 }, some .pauseResolve)

/-- Firing a scheduled 400 ms callback. -/
def fireTransition : Scheduled → GameView → GameView
  | .resumeResolve, s => { s with gameState := s.prevGameState, pausable := true }
  | .pauseResolve, s => { s with pausable := true }

/-- A concrete playing state: mid-game, 15 s timer started at 0, no
window open. -/
def sampleView : GameView :=
  { gameState := 1, prevGameState := 0, pausable := true,
    timer := { duration := 15, startedAt := some 0, pausedElapsed := none } }

/-! ## Theorems -/
/-- C1: pausing at wall-clock `t1` (snapshot) and resuming at
`t2 = t1 + p` with `p ≥ 0` (compensation: `startedAt` shifted by
`now − (startedAt + pausedElapsed·1000)`, then `pausedElapsed` cleared)
leaves the remaining countdown at `t2` equal to the remaining countdown at
`t1`: wall-clock time spent paused never counts against the countdown. -/
theorem pause_resume_preserves_remaining
    (d st t1 p : ℚ) (pe0 : Option ℚ) (hp : 0 ≤ p) :
    remaining (t1 + p)
      (resumeCompensate (t1 + p) 1
        (pauseSnapshot t1 { duration := d, startedAt := some st, pausedElapsed := pe0 }))
      = remaining t1 { duration := d, startedAt := some st, pausedElapsed := pe0 } := by
  simp [pauseSnapshot, resumeCompensate, remaining]

/-- Witness for C1 at duration 15 s, started at 0, paused at t1 = 5000 ms,
resumed 3000 ms later. -/
theorem pause_resume_preserves_remaining_witness :
    remaining (5000 + 3000)
      (resumeCompensate (5000 + 3000) 1
        (pauseSnapshot 5000 { duration := 15, startedAt := some 0, pausedElapsed := none }))
      = remaining 5000 { duration := 15, startedAt := some 0, pausedElapsed := none } :=
  pause_resume_preserves_remaining 15 0 5000 3000 none (by norm_num)

/-- C4: given `timerDuration ≥ 1`, the `time` field is a whole number of
seconds lying in `[1, timerDuration]`, for every raw `gameTimer` value
(negative, zero, or exceeding the duration included). -/
theorem timeTaken_bounds (d : ℤ) (g : Option ℚ) (hd : 1 ≤ d) :
    1 ≤ timeTaken d g ∧ timeTaken d g ≤ (d : ℚ) ∧ ∃ n : ℤ, timeTaken d g = (n : ℚ) := by
  have hd' : (1 : ℚ) ≤ (d : ℚ) := by exact_mod_cast hd
  refine ⟨le_max_left 1 _, ?_, ?_⟩
  · exact max_le hd' (min_le_left _ _)
  · cases g with
    | none =>
        refine ⟨max 1 (min d d), ?_⟩
        simp [timeTaken]
    | some gv =>
        by_cases hg : gv > 0
        · refine ⟨max 1 (min d (Int.ceil ((d : ℚ) - gv))), ?_⟩
          simp [timeTaken, hg]
        · refine ⟨max 1 (min d d), ?_⟩
          simp [timeTaken, hg]

/-- Witness for C4 at duration 15 and a raw remaining value of 7/2 s:
the submitted time is the whole number 12 in `[1, 15]`. -/
theorem timeTaken_bounds_witness :
    1 ≤ timeTaken 15 (some (7 / 2)) ∧ timeTaken 15 (some (7 / 2)) ≤ (15 : ℚ)
      ∧ ∃ n : ℤ, timeTaken 15 (some (7 / 2)) = (n : ℚ) :=
  timeTaken_bounds 15 (some (7 / 2)) (by norm_num)

/-- C5: with `sessionId = ""` and `authToken = ""`, the guard at
`view.js` lines 168-172 returns before the request is built: no network
call is constructed or sent, whatever the other inputs are. -/
theorem submit_skipped_on_empty_session
    (poolId : String) (score gameTimerDuration : ℤ) (gameTimer : Option ℚ) :
    submitScoreToFlutter poolId "" "" score gameTimerDuration gameTimer
      = SubmitResult.skipped := by
  simp [submitScoreToFlutter]

/-- C10: even with `sessionId` and `authToken` both non-empty (a usable
session), an empty `poolId` makes the same guard return early: the
submission is silently skipped with no request built. -/
theorem submit_skipped_on_empty_poolId
    (sessionId authToken : String) (score gameTimerDuration : ℤ)
    (gameTimer : Option ℚ)
    (hs : sessionId ≠ "") (ha : authToken ≠ "") :
    submitScoreToFlutter "" sessionId authToken score gameTimerDuration gameTimer
      = SubmitResult.skipped := by
  simp [submitScoreToFlutter]

/-- Witness for C10: a usable session (`sess1`, `tok1`) with empty
`poolId` is skipped. -/
theorem submit_skipped_on_empty_poolId_witness :
    submitScoreToFlutter "" "sess1" "tok1" 100 15 (some 5) = SubmitResult.skipped :=
  submit_skipped_on_empty_poolId "sess1" "tok1" 100 15 (some 5)
    (by decide) (by decide)

/-- C2 (code bug evidence): at a concrete usable session the request is
built on the hardcoded base `http://192.168.29.71:5006` (`view.js`
line 191), which differs from the URL the spec prescribes with the
default `apiServerUrl` value; the resolved `apiServerUrl` is never
consulted by `submitScoreToFlutter`. -/
theorem submit_url_ignores_api_server :
    submitScoreToFlutter "pool1" "sess1" "tok1" 100 15 (some 5)
      = SubmitResult.request (submitUrl "pool1" "sess1") ("Bearer " ++ "tok1")
          100 (timeTaken 15 (some 5))
    ∧ submitUrl "pool1" "sess1"
        ≠ specSubmitUrl "https://api.metaninza.net" "pool1" "sess1" := by
  constructor
  · rfl
  · decide

/-- C3 (code bug evidence): every outcome — success, non-success status,
malformed JSON body, transport failure — settles fulfilled (so no
unhandled rejection), but the list of host notifications is empty on
every path: the shipped chain notifies the host zero times, never once. -/
theorem submit_outcome_no_host_notification (o : FetchOutcome) :
    ∃ c : ConsoleEvent, submitOutcomeChain o = .fulfilled (c, ([] : List String)) := by
  cases o with
  | response ok jsonValid =>
      cases ok <;> cases jsonValid <;> exact ⟨_, rfl⟩
  | networkError => exact ⟨_, rfl⟩

/-- C6 counterexample: the injected object is present but expired
(`expiresAt = 100 < now = 200`) and the query string carries both
identity fields (`qs-sess`, `qs-tok`), yet the resolved state has empty
identity fields and is not usable — resolution does not fall back to the
query string on that poll. -/
theorem expired_injected_ignores_query_counterexample :
    ((initFlutterParams 200
        (some { sessionId := "inj-sess", token := "inj-tok", poolId := "inj-pool",
                timerDuration := none, timer := none, apiServerUrl := "",
                apiServer := "", expiresAt := some 100 })
        { poolId := "qs-pool", sessionId := "qs-sess", authToken := "qs-tok",
          timer := none, apiServerUrl := "", apiServer := "", debug := "" }
        initialState).1.sessionId = ""
     ∧ (initFlutterParams 200
        (some { sessionId := "inj-sess", token := "inj-tok", poolId := "inj-pool",
                timerDuration := none, timer := none, apiServerUrl := "",
                apiServer := "", expiresAt := some 100 })
        { poolId := "qs-pool", sessionId := "qs-sess", authToken := "qs-tok",
          timer := none, apiServerUrl := "", apiServer := "", debug := "" }
        initialState).1.sessionReady = false) :=
  ⟨rfl, rfl⟩

/-- C6 amended: when the injected object is present but expired (its
truthy `expiresAt` is strictly in the past), the identity fields are
cleared and — absent the debug flag — resolution does not fall back to
the query string on that poll: the session ends the call unusable. -/
theorem expired_injected_clears_session
    (now e : ℚ) (g : InjectedSession) (q : QueryParams) (st : SessionState)
    (hexp : g.expiresAt = some e) (h0 : e ≠ 0) (hlt : e < now)
    (hdbg : q.debug ≠ "true") :
    (initFlutterParams now (some g) q st).1.sessionId = ""
      ∧ (initFlutterParams now (some g) q st).1.authToken = ""
      ∧ (initFlutterParams now (some g) q st).1.sessionReady = false := by
  have hclr : isExpired now g = true := by
    simp [isExpired, hexp, bne_iff_ne, h0, hlt]
  simp [initFlutterParams, resolveChannels, applyDebug, setReady, hclr, hdbg]

/-- Witness for the amended C6 at the counterexample's inputs. -/
theorem expired_injected_clears_session_witness :
    (initFlutterParams 200
        (some { sessionId := "inj-sess", token := "inj-tok", poolId := "inj-pool",
                timerDuration := none, timer := none, apiServerUrl := "",
                apiServer := "", expiresAt := some 100 })
        { poolId := "qs-pool", sessionId := "qs-sess", authToken := "qs-tok",
          timer := none, apiServerUrl := "", apiServer := "", debug := "x" }
        initialState).1.sessionId = ""
      ∧ (initFlutterParams 200
        (some { sessionId := "inj-sess", token := "inj-tok", poolId := "inj-pool",
                timerDuration := none, timer := none, apiServerUrl := "",
                apiServer := "", expiresAt := some 100 })
        { poolId := "qs-pool", sessionId := "qs-sess", authToken := "qs-tok",
          timer := none, apiServerUrl := "", apiServer := "", debug := "x" }
        initialState).1.authToken = ""
      ∧ (initFlutterParams 200
        (some { sessionId := "inj-sess", token := "inj-tok", poolId := "inj-pool",
                timerDuration := none, timer := none, apiServerUrl := "",
                apiServer := "", expiresAt := some 100 })
        { poolId := "qs-pool", sessionId := "qs-sess", authToken := "qs-tok",
          timer := none, apiServerUrl := "", apiServer := "", debug := "x" }
        initialState).1.sessionReady = false :=
  expired_injected_clears_session 200 100 _ _ initialState rfl
    (by norm_num) (by norm_num) (by decide)

/-- C7: the debug path is inert whenever the `debug` parameter is not
exactly `"true"`, and with `debug=true` and no other parameters at all
the resolved session carries the fixed placeholder identity values and is
usable. -/
theorem debug_placeholder_session :
    (∀ (q : QueryParams) (st : SessionState), q.debug ≠ "true" → applyDebug q st = st)
    ∧ (initFlutterParams 0 none
        { poolId := "", sessionId := "", authToken := "", timer := none,
          apiServerUrl := "", apiServer := "", debug := "true" } initialState).1
      = { poolId := "test-pool-123", sessionId := "test-session-456",
          authToken := "test-token-789", gameTimerDuration := 15,
          apiServerUrl := "https://api.metaninza.net", sessionReady := true } := by
  constructor
  · intro q st h
    simp [applyDebug, h]
  · rfl

/-- Witness for C7's inertness half: with `debug` absent the debug path
leaves the state unchanged. -/
theorem debug_placeholder_session_witness :
    applyDebug
      { poolId := "p", sessionId := "s", authToken := "a", timer := none,
        apiServerUrl := "", apiServer := "", debug := "" } initialState
      = initialState :=
  debug_placeholder_session.1
    { poolId := "p", sessionId := "s", authToken := "a", timer := none,
      apiServerUrl := "", apiServer := "", debug := "" } initialState (by decide)

/-- C8 counterexample: on a first poll with no injected object and a
query string carrying both identity fields, the `requestSessionParams`
signal is emitted anyway (the guard reads only the prior globals), even
though channel (2) of that same cycle yields both fields and the cycle
ends ready. -/
theorem request_emitted_despite_query_counterexample :
    ((initFlutterParams 0 none
        { poolId := "qp", sessionId := "abc", authToken := "xyz", timer := none,
          apiServerUrl := "", apiServer := "", debug := "" } initialState).2 = true
     ∧ ("abc" : String) ≠ "" ∧ ("xyz" : String) ≠ ""
     ∧ (initFlutterParams 0 none
        { poolId := "qp", sessionId := "abc", authToken := "xyz", timer := none,
          apiServerUrl := "", apiServer := "", debug := "" } initialState).1.sessionReady
       = true) :=
  ⟨rfl, by decide, by decide, rfl⟩

/-- C8 amended: each polling cycle emits the outbound
`requestSessionParams` signal at most once (the cycle's emission decision
is a single boolean), and it is emitted exactly when no injected object
exists and both identity fields carried over from previous cycles are
empty — regardless of what the current cycle's query string yields. -/
theorem request_emission_characterisation
    (now : ℚ) (injected : Option InjectedSession) (q : QueryParams)
    (st : SessionState) :
    (initFlutterParams now injected q st).2 = true
      ↔ injected = none ∧ st.sessionId = "" ∧ st.authToken = "" := by
  simp [initFlutterParams, emitsRequestSessionParams,
    Option.isNone_iff_eq_none, and_assoc]

/-- Any request arriving while the transition window is open is dropped:
the state is unchanged and nothing is scheduled. -/
theorem pause_locked (now : ℚ) (s : GameView) (h : s.pausable = false) :
    pause now s = (s, none) := by
  simp [pause, h]

/-- C9: starting from `Playing` with no window open, a pause opens a
window (schedules the 400 ms callback, state immediately `Paused`);
every request during the window is dropped — no state change, nothing
queued; the window closes to `Paused`. A subsequent resume again opens a
window, requests during it are dropped, and the window closes to
`Playing`. -/
theorem transition_window_drops_requests
    (s : GameView) (t u r r' : ℚ)
    (h1 : s.gameState = 1) (h2 : s.pausable = true) :
    ((pause t s).2 = some Scheduled.pauseResolve)
    ∧ ((pause t s).1.gameState = -1)
    ∧ ((pause t s).1.pausable = false)
    ∧ (pause r (pause t s).1 = ((pause t s).1, none))
    ∧ ((fireTransition .pauseResolve (pause t s).1).gameState = -1)
    ∧ ((fireTransition .pauseResolve (pause t s).1).pausable = true)
    ∧ ((pause u (fireTransition .pauseResolve (pause t s).1)).2
        = some Scheduled.resumeResolve)
    ∧ ((pause u (fireTransition .pauseResolve (pause t s).1)).1.gameState = -1)
    ∧ ((pause u (fireTransition .pauseResolve (pause t s).1)).1.pausable = false)
    ∧ (pause r' (pause u (fireTransition .pauseResolve (pause t s).1)).1
        = ((pause u (fireTransition .pauseResolve (pause t s).1)).1, none))
    ∧ ((fireTransition .resumeResolve
          (pause u (fireTransition .pauseResolve (pause t s).1)).1).gameState = 1)
    ∧ ((fireTransition .resumeResolve
          (pause u (fireTransition .pauseResolve (pause t s).1)).1).pausable = true) := by
  have hp1 : pause t s
      = ({ s with pausable := false, prevGameState := 1,
                  timer := pauseSnapshot t s.timer, gameState := -1 },
         some Scheduled.pauseResolve) := by
    simp [pause, h1, h2]
  refine ⟨?_, ?_, ?_, ?_, ?_, ?_, ?_, ?_, ?_, ?_, ?_, ?_⟩ <;>
    simp only [hp1] <;> simp [pause, fireTransition]

/-- Witness for C9 at a concrete playing state. -/
theorem transition_window_drops_requests_witness :
    ((pause 1000 sampleView).2 = some Scheduled.pauseResolve)
    ∧ ((pause 1000 sampleView).1.gameState = -1)
    ∧ ((pause 1000 sampleView).1.pausable = false)
    ∧ (pause 1100 (pause 1000 sampleView).1 = ((pause 1000 sampleView).1, none))
    ∧ ((fireTransition .pauseResolve (pause 1000 sampleView).1).gameState = -1)
    ∧ ((fireTransition .pauseResolve (pause 1000 sampleView).1).pausable = true)
    ∧ ((pause 2000 (fireTransition .pauseResolve (pause 1000 sampleView).1)).2
        = some Scheduled.resumeResolve)
    ∧ ((pause 2000 (fireTransition .pauseResolve (pause 1000 sampleView).1)).1.gameState = -1)
    ∧ ((pause 2000 (fireTransition .pauseResolve (pause 1000 sampleView).1)).1.pausable = false)
    ∧ (pause 2100 (pause 2000 (fireTransition .pauseResolve (pause 1000 sampleView).1)).1
        = ((pause 2000 (fireTransition .pauseResolve (pause 1000 sampleView).1)).1, none))
    ∧ ((fireTransition .resumeResolve
          (pause 2000 (fireTransition .pauseResolve (pause 1000 sampleView).1)).1).gameState = 1)
    ∧ ((fireTransition .resumeResolve
          (pause 2000 (fireTransition .pauseResolve (pause 1000 sampleView).1)).1).pausable = true) :=
  transition_window_drops_requests sampleView 1000 2000 1100 2100 rfl rfl

end Hextris
